import Mathlib

/-!
Shallow embedding of `QOpenScienceFramework/manager.py` (class
`ConnectionManager`), faithful to the source.  Network replies, kwargs
dictionaries and the pending-request dictionary are made explicit; side
effects (signal emissions, callback invocations, reissued requests,
resource releases) are recorded as an explicit list of `Effect` values in
the order the source performs them.
-/

namespace OSF

/-- `MAX_REDIRECTS` — manager.py line 48: the maximum number of allowed
redirects. -/
def MAX_REDIRECTS : Nat := 5

/-- The `QNetworkReply` error codes that the dispatcher distinguishes
(manager.py lines 738, 741, 752); every further code behaves like
`ContentNotFoundError` / `otherNetworkError` there. -/
inductive ReplyError where
  | NoError
  | AuthenticationRequiredError
  | OperationCanceledError
  | ContentNotFoundError
  | otherNetworkError
  deriving DecidableEq, Repr

/-- `QNetworkAccessManager` operation kinds, compared against
`self.GetOperation` at manager.py line 799. -/
inductive Operation where
  | GetOperation
  | PostOperation
  | PutOperation
  | DeleteOperation
  deriving DecidableEq, Repr

/-- The attributes of a finished `QNetworkReply` that `__reply_finished`
reads: `error()`, `HttpStatusCodeAttribute`, `errorString()`,
`RedirectionTargetAttribute` and `operation()`. -/
structure Reply where
  error : ReplyError
  httpStatus : Nat
  errorString : String
  redirectTarget : String
  operation : Operation
  deriving DecidableEq, Repr

/-- A value of `pending_requests`: the tuple stored at manager.py lines
222-224 — the owning user's id (`logged_in_user['data']['id']`) and the
zero-argument replay closure (`lambda: func(inst, *args, **kwargs)`),
which we represent by an opaque numeric tag. -/
structure PendingEntry where
  owner : String
  cont : Nat
  deriving DecidableEq, Repr

/-- The `pending_requests` dictionary: uuid4 keys are unique, and a
CPython dict iterates in insertion order, so it is an insertion-ordered
association list. -/
abbrev PendingRequests := List (Nat × PendingEntry)

/-- The kwargs entries that `__reply_finished` consults.  `request_id`
is `'_request_id'` (set only by the `check_network_accessibility`
decorator, line 226); `redirect_count` is `'redirect_count'`, which is
initialised to 0 by `get` (line 328) and `delete` (line 528) but never
set by `post`/`put`, hence an `Option`; the remaining fields record
whether the caller supplied the corresponding callback/handle keyword
(caller configuration travelling with the request). -/
structure Kwargs where
  request_id : Option Nat
  redirect_count : Option Nat
  errorCallback : Bool
  downloadProgress : Bool
  readyRead : Bool
  abortSignal : Bool
  deriving DecidableEq, Repr

/-- Observable side effects of the manager, in execution order. -/
inductive Effect where
  | dispatchLogout
  | showLoginWindow
  | emitErrorMessage (title msg : String)
  | emitWarningMessage (title msg : String)
  | invokeErrorCallback
  | invokeCallback (cb : Nat)
  | reissueGet (url : String) (cb : Nat) (kwargs : Kwargs)
  | closeFileHandles
  | deleteReply
  | invokeFinishedCallback
  deriving DecidableEq, Repr

/-- Result of one `__reply_finished` invocation.  `raisedKeyError` is
true when `kwargs['redirect_count']` at line 781 raises `KeyError`
because the key was never set (possible only for `post`/`put` replies
with a 301/302 status); effects recorded before the raise are kept. -/
structure ReplyOutcome where
  effects : List Effect
  pending : PendingRequests
  raisedKeyError : Bool
  deriving DecidableEq, Repr

/-- `self.pending_requests.pop(current_request_id, None)` — removes the
entry with the given key (keys are unique uuid4 values) when the id is
set; manager.py lines 760-761 and 774-775. -/
def popRequest (id? : Option Nat) (pending : PendingRequests) : PendingRequests :=
  match id? with
  | none => pending
  | some rid => pending.filter (fun p => p.1 != rid)

/-- `if callable(errorCallback): errorCallback(reply)` — manager.py
lines 767-768 and 788-789. -/
def errorCallbackEffects (kwargs : Kwargs) : List Effect :=
  if kwargs.errorCallback then [Effect.invokeErrorCallback] else []

/-- `__reply_finished` (manager.py lines 727-813), the completion slot of
every verb request.  `callback` is the completion continuation the verb
method wired at issuance (an opaque tag). -/
def reply_finished (callback : Nat) (reply : Reply) (kwargs : Kwargs)
    (pending : PendingRequests) : ReplyOutcome :=
  -- line 735: current_request_id = kwargs.pop('_request_id', None)
  let current_request_id := kwargs.request_id
  let kwargs1 : Kwargs := { kwargs with request_id := none }
  if reply.error ≠ ReplyError.NoError then
    if reply.error = ReplyError.AuthenticationRequiredError then
      -- lines 741-746: dispatch logout, show the login window again;
      -- the queue entry is NOT removed and no handles are closed;
      -- lines 766-770: error callback (if any), release the reply.
      { effects := [Effect.dispatchLogout, Effect.showLoginWindow]
          ++ errorCallbackEffects kwargs1 ++ [Effect.deleteReply],
        pending := pending,
        raisedKeyError := false }
    else
      -- lines 748-770: generic error path.
      let notif : List Effect :=
        if reply.error ≠ ReplyError.OperationCanceledError then
          [Effect.emitErrorMessage (toString reply.httpStatus) reply.errorString]
        else []
      { effects := notif ++ [Effect.closeFileHandles]
          ++ errorCallbackEffects kwargs1 ++ [Effect.deleteReply],
        pending := popRequest current_request_id pending,
        raisedKeyError := false }
  else
    -- lines 772-775: every non-error reply releases its queue entry.
    let pending1 := popRequest current_request_id pending
    if reply.httpStatus = 301 ∨ reply.httpStatus = 302 then
      -- line 781: kwargs['redirect_count'] — KeyError when absent.
      match kwargs1.redirect_count with
      | none =>
        { effects := [], pending := pending1, raisedKeyError := true }
      | some rc =>
        if rc < MAX_REDIRECTS then
          -- line 782: kwargs['redirect_count'] += 1
          let kwargs2 : Kwargs := { kwargs1 with redirect_count := some (rc + 1) }
          -- lines 795-800: reissue, but only for GET operations.
          if reply.operation = Operation.GetOperation then
            { effects := [Effect.reissueGet reply.redirectTarget callback kwargs2,
                Effect.deleteReply],
              pending := pending1,
              raisedKeyError := false }
          else
            { effects := [Effect.deleteReply],
              pending := pending1,
              raisedKeyError := false }
        else
          -- lines 783-794: too many redirects — terminal failure.
          { effects := [Effect.emitErrorMessage "Whoops, something is going wrong"
                "Too Many redirects"]
              ++ errorCallbackEffects kwargs1
              ++ [Effect.closeFileHandles, Effect.deleteReply],
            pending := pending1,
            raisedKeyError := false }
    else
      -- lines 801-813: success — strip bookkeeping kwargs and invoke
      -- the completion continuation, then release the reply.
      { effects := [Effect.invokeCallback callback, Effect.deleteReply],
        pending := pending1,
        raisedKeyError := false }

/-- Result of the `check_network_accessibility` wrapper around a verb
call (manager.py lines 206-228). -/
inductive WrapperResult where
  | noNetwork (effects : List Effect)
  | issued (request_id : Option Nat) (pending : PendingRequests)
  deriving DecidableEq, Repr

/-- `func_wrapper` inside the `check_network_accessibility` decorator
(manager.py lines 206-228).  When online and a user is logged in, a
fresh uuid4 `request_id` keys a new `(user id, replay closure)` entry
appended to `pending_requests` and `'_request_id'` is added to the
kwargs, all before `func` issues the network call; the returned
`issued` value is the state at the moment the call goes out. -/
def func_wrapper (isOnline : Bool) (logged_in_user : Option String)
    (freshId : Nat) (cont : Nat) (pending : PendingRequests) : WrapperResult :=
  if !isOnline then
    WrapperResult.noNetwork
      [Effect.emitErrorMessage "No network access"
        "Your network connection is down or you currently have no Internet access."]
  else
    match logged_in_user with
    | some uid =>
        WrapperResult.issued (some freshId)
          (pending ++ [(freshId, { owner := uid, cont := cont })])
    | none => WrapperResult.issued none pending

/-- The replay loop of `set_logged_in_user` (manager.py lines 991-993):
iterate the pending entries in insertion order and invoke every
continuation whose owner matches the newly logged-in user's id. -/
def replayLoop (uid : String) : PendingRequests → List Nat
  | [] => []
  | (_, e) :: rest =>
      if e.owner = uid then e.cont :: replayLoop uid rest
      else replayLoop uid rest

/-- `set_logged_in_user` (manager.py lines 986-994): stores the fetched
user data, replays pending requests of that user, then resets
`pending_requests` to an empty dict.  Returns the continuations invoked
(in order) and the queue afterwards. -/
def set_logged_in_user (uid : String) (pending : PendingRequests) :
    List Nat × PendingRequests :=
  (replayLoop uid pending, [])

/-- The transfer-related state a request carries: the download staging
handle (`kwargs['tmp_file']`, `some b` when a `QTemporaryFile` is
present and `b` records whether it is open), its buffered content, the
upload source handle (`kwargs['data_to_send']`), and the content of the
file currently at the download destination path (`none` when
`QFile.exists(kwargs['destination'])` is false). -/
structure TransferState where
  tmp_file : Option Bool
  tmpContent : String
  data_to_send : Option Bool
  destContent : Option String
  deriving DecidableEq, Repr

/-- `__close_file_handles` (manager.py lines 963-974): close the
download staging handle and the upload source handle when present.
The destination file is untouched. -/
def close_file_handles (st : TransferState) : TransferState :=
  { st with
      tmp_file := st.tmp_file.map (fun _ => false),
      data_to_send := st.data_to_send.map (fun _ => false) }

/-- Outcome of `__download_finished` / `__upload_finished`:
`attributeError` models the `raise AttributeError` guards on missing
kwargs, `done` carries the final transfer state and the effects. -/
inductive TransferResult where
  | attributeError
  | done (st : TransferState) (effects : List Effect)
  deriving DecidableEq, Repr

/-- The copy step of `__download_finished` (manager.py lines 899-909):
copy the temp file to the destination; on failure emit a terminal error
message and stop, otherwise invoke the `finishedCallback` if supplied.
`copyOk` is the filesystem's answer to `tmp_file.copy(destination)`. -/
def download_copy (copyOk finishedCallback : Bool) (st : TransferState) :
    TransferResult :=
  if copyOk then
    TransferResult.done { st with destContent := some st.tmpContent }
      (if finishedCallback then [Effect.invokeFinishedCallback] else [])
  else
    TransferResult.done st
      [Effect.emitErrorMessage "Error saving file" "Could not save file to destination"]

/-- `__download_finished` (manager.py lines 874-909).  `hasDestination`
is `'destination' in kwargs` (always set by `download_file`, line 681);
`removeOk` is the filesystem's answer to `QFile.remove(destination)`;
the source formats the destination path into the two error messages. -/
def download_finished (hasDestination removeOk copyOk finishedCallback : Bool)
    (st : TransferState) : TransferResult :=
  if !hasDestination then TransferResult.attributeError
  else
    match st.tmp_file with
    | none => TransferResult.attributeError
    | some _ =>
      -- line 887: kwargs['tmp_file'].close()
      let st1 : TransferState := { st with tmp_file := some false }
      match st1.destContent with
      | some _ =>
        -- lines 890-898: a file already exists at the destination.
        if removeOk then
          download_copy copyOk finishedCallback { st1 with destContent := none }
        else
          TransferResult.done st1
            [Effect.emitErrorMessage "Error saving file" "Could not replace destination"]
      | none => download_copy copyOk finishedCallback st1

/-- `__upload_finished` (manager.py lines 946-961): raise if the source
handle is missing, otherwise close it and invoke the
`finishedCallback` if supplied. -/
def upload_finished (finishedCallback : Bool) (st : TransferState) :
    TransferResult :=
  match st.data_to_send with
  | none => TransferResult.attributeError
  | some _ =>
      TransferResult.done { st with data_to_send := some false }
        (if finishedCallback then [Effect.invokeFinishedCallback] else [])

/-- An OAuth2 token record as persisted in the token file:
`expires_at` in seconds since the epoch. -/
structure Token where
  access_token : String
  expires_at : Nat
  deriving DecidableEq, Repr

/-- The in-memory OAuth2 session (`osf.session`), reduced to the token
it holds. -/
structure Session where
  token : Option Token
  deriving DecidableEq, Repr

/-- Modelled from the spec: `osf.create_session()` lives in
`QOpenScienceFramework/connection.py`, which is not among the analysed
sources; per the spec the session is "created empty" — reset with no
token. -/
def create_session : Session := { token := none }

/-- The state `check_for_stored_token` operates on: whether a file
exists at `tokenfile`, whether it can be opened/parsed, the token it
holds, and the in-memory session. -/
structure TokenStoreState where
  tokenfileExists : Bool
  tokenfileReadable : Bool
  storedToken : Token
  session : Session
  deriving DecidableEq, Repr

/-- `check_for_stored_token` (manager.py lines 159-194): `False` when
the file is missing or unreadable; when the stored token is unexpired
(`expires_at > now`) load it into the session and return `True`;
otherwise reset the session, delete the token file and return
`False`. -/
def check_for_stored_token (now : Nat) (st : TokenStoreState) :
    Bool × TokenStoreState :=
  if !st.tokenfileExists then (false, st)
  else if !st.tokenfileReadable then (false, st)
  else if st.storedToken.expires_at > now then
    (true, { st with session := { token := some st.storedToken } })
  else
    (false, { st with session := create_session, tokenfileExists := false })

/-- What `login` does after checking the stored token. -/
inductive LoginAction where
  | dispatchLogin
  | showLoginWindow
  deriving DecidableEq, Repr

/-- `login` (manager.py lines 123-133): dispatch the login event when a
valid stored token is found, otherwise start the interactive
authentication flow by showing the login window. -/
def login (now : Nat) (st : TokenStoreState) : LoginAction × TokenStoreState :=
  let (ok, st1) := check_for_stored_token now st
  if ok then (LoginAction.dispatchLogin, st1) else (LoginAction.showLoginWindow, st1)

/-- What `logout` does. -/
inductive LogoutAction where
  | postLogout
  | noop
  deriving DecidableEq, Repr

/-- `logout` (manager.py lines 145-152): when authorized with an access
token, POST to the logout endpoint with `__logout_succeeded` as the
completion continuation; otherwise do nothing. -/
def logout (isAuthorized hasAccessToken : Bool) : LogoutAction :=
  if isAuthorized && hasAccessToken then LogoutAction.postLogout
  else LogoutAction.noop

/-- Whether the logout event is dispatched during the handling of the
logout POST's reply: either directly by the authentication-failure
branch of `__reply_finished` (line 745) or by `__logout_succeeded`
(lines 154-157), which runs exactly when the completion continuation
`cb` of the logout POST is invoked. -/
def logoutEventDispatched (cb : Nat) (out : ReplyOutcome) : Prop :=
  Effect.dispatchLogout ∈ out.effects ∨ Effect.invokeCallback cb ∈ out.effects

instance (cb : Nat) (out : ReplyOutcome) : Decidable (logoutEventDispatched cb out) := by
  unfold logoutEventDispatched
  infer_instance

/-- Counts reachable as the value of `'redirect_count'` on some request
of one logical GET chain: `get` initialises the count to 0 (line 328),
and each reissue performed by `__reply_finished` on a 301/302 reply
carries the count stored in the reissued request's kwargs. -/
inductive ReachableRedirectCount (cb : Nat) : Nat → Prop where
  | initial : ReachableRedirectCount cb 0
  | step : ∀ (rc rc' : Nat) (reply : Reply) (kwargs : Kwargs)
      (pending : PendingRequests) (url : String) (cb' : Nat) (k : Kwargs),
      kwargs.redirect_count = some rc →
      Effect.reissueGet url cb' k ∈ (reply_finished cb reply kwargs pending).effects →
      k.redirect_count = some rc' →
      ReachableRedirectCount cb rc →
      ReachableRedirectCount cb rc'


/-! ### Branch shape lemmas for `reply_finished` -/

/-- Shape of the authentication-failure branch (manager.py lines
741-746, 766-770). -/
theorem reply_finished_auth (cb : Nat) (reply : Reply) (kwargs : Kwargs)
    (pending : PendingRequests)
    (hc : reply.error = ReplyError.AuthenticationRequiredError) :
    reply_finished cb reply kwargs pending =
      { effects := [Effect.dispatchLogout, Effect.showLoginWindow]
          ++ errorCallbackEffects { kwargs with request_id := none }
          ++ [Effect.deleteReply],
        pending := pending, raisedKeyError := false } := by
  simp only [reply_finished, hc]
  rfl

/-- Shape of the user-cancelled branch (manager.py lines 748-770 with
the notification suppressed at line 752). -/
theorem reply_finished_cancel (cb : Nat) (reply : Reply) (kwargs : Kwargs)
    (pending : PendingRequests)
    (hc : reply.error = ReplyError.OperationCanceledError) :
    reply_finished cb reply kwargs pending =
      { effects := [Effect.closeFileHandles]
          ++ errorCallbackEffects { kwargs with request_id := none }
          ++ [Effect.deleteReply],
        pending := popRequest kwargs.request_id pending,
        raisedKeyError := false } := by
  simp only [reply_finished, hc]
  rfl

/-- Shape of the generic-error branch (manager.py lines 748-770 with
the notification emitted). -/
theorem reply_finished_genericError (cb : Nat) (reply : Reply) (kwargs : Kwargs)
    (pending : PendingRequests)
    (hc : reply.error = ReplyError.ContentNotFoundError ∨
      reply.error = ReplyError.otherNetworkError) :
    reply_finished cb reply kwargs pending =
      { effects := [Effect.emitErrorMessage (toString reply.httpStatus) reply.errorString,
            Effect.closeFileHandles]
          ++ errorCallbackEffects { kwargs with request_id := none }
          ++ [Effect.deleteReply],
        pending := popRequest kwargs.request_id pending,
        raisedKeyError := false } := by
  rcases hc with hc | hc <;> simp only [reply_finished, hc] <;> rfl

/-- Shape of the redirect branch when `'redirect_count'` was never set
(manager.py line 781 raises `KeyError`): only `post`/`put` replies can
reach this. -/
theorem reply_finished_keyError (cb : Nat) (reply : Reply) (kwargs : Kwargs)
    (pending : PendingRequests)
    (he : reply.error = ReplyError.NoError)
    (hs : reply.httpStatus = 301 ∨ reply.httpStatus = 302)
    (hrc : kwargs.redirect_count = none) :
    reply_finished cb reply kwargs pending =
      { effects := [], pending := popRequest kwargs.request_id pending,
        raisedKeyError := true } := by
  rcases hs with hs | hs <;>
    simp [reply_finished, he, hs, hrc]

/-- Shape of the in-bound GET redirect branch (manager.py lines
781-782, 795-800). -/
theorem reply_finished_redirect_reissue (cb : Nat) (reply : Reply) (kwargs : Kwargs)
    (pending : PendingRequests) (rc : Nat)
    (he : reply.error = ReplyError.NoError)
    (hs : reply.httpStatus = 301 ∨ reply.httpStatus = 302)
    (hrc : kwargs.redirect_count = some rc)
    (hlt : rc < MAX_REDIRECTS)
    (hget : reply.operation = Operation.GetOperation) :
    reply_finished cb reply kwargs pending =
      { effects := [Effect.reissueGet reply.redirectTarget cb
            { kwargs with request_id := none, redirect_count := some (rc + 1) },
          Effect.deleteReply],
        pending := popRequest kwargs.request_id pending,
        raisedKeyError := false } := by
  rcases hs with hs | hs <;>
    simp [reply_finished, he, hs, hrc, hlt, hget]

/-- Shape of the in-bound non-GET redirect branch (manager.py lines
781-782 and the guard at line 799). -/
theorem reply_finished_redirect_silent (cb : Nat) (reply : Reply) (kwargs : Kwargs)
    (pending : PendingRequests) (rc : Nat)
    (he : reply.error = ReplyError.NoError)
    (hs : reply.httpStatus = 301 ∨ reply.httpStatus = 302)
    (hrc : kwargs.redirect_count = some rc)
    (hlt : rc < MAX_REDIRECTS)
    (hop : reply.operation ≠ Operation.GetOperation) :
    reply_finished cb reply kwargs pending =
      { effects := [Effect.deleteReply],
        pending := popRequest kwargs.request_id pending,
        raisedKeyError := false } := by
  rcases hs with hs | hs <;>
    simp [reply_finished, he, hs, hrc, hlt, hop]

/-- Shape of the redirect-exhaustion branch (manager.py lines
783-794). -/
theorem reply_finished_redirect_exhausted (cb : Nat) (reply : Reply) (kwargs : Kwargs)
    (pending : PendingRequests) (rc : Nat)
    (he : reply.error = ReplyError.NoError)
    (hs : reply.httpStatus = 301 ∨ reply.httpStatus = 302)
    (hrc : kwargs.redirect_count = some rc)
    (hge : ¬ rc < MAX_REDIRECTS) :
    reply_finished cb reply kwargs pending =
      { effects := [Effect.emitErrorMessage "Whoops, something is going wrong"
            "Too Many redirects"]
          ++ errorCallbackEffects { kwargs with request_id := none }
          ++ [Effect.closeFileHandles, Effect.deleteReply],
        pending := popRequest kwargs.request_id pending,
        raisedKeyError := false } := by
  rcases hs with hs | hs <;>
    simp [reply_finished, he, hs, hrc, hge, errorCallbackEffects]

/-- Shape of the success branch (manager.py lines 801-813). -/
theorem reply_finished_success (cb : Nat) (reply : Reply) (kwargs : Kwargs)
    (pending : PendingRequests)
    (he : reply.error = ReplyError.NoError)
    (h301 : reply.httpStatus ≠ 301) (h302 : reply.httpStatus ≠ 302) :
    reply_finished cb reply kwargs pending =
      { effects := [Effect.invokeCallback cb, Effect.deleteReply],
        pending := popRequest kwargs.request_id pending,
        raisedKeyError := false } := by
  simp [reply_finished, he, h301, h302]

/-- On every non-authentication-failure classification the queue entry
of the finished request is removed (manager.py lines 760-761 and
774-775); the authentication branch skips both removals. -/
theorem reply_finished_pending_nonauth (cb : Nat) (reply : Reply) (kwargs : Kwargs)
    (pending : PendingRequests)
    (hne : reply.error ≠ ReplyError.AuthenticationRequiredError) :
    (reply_finished cb reply kwargs pending).pending =
      popRequest kwargs.request_id pending := by
  simp only [reply_finished]
  repeat' split
  all_goals simp_all

/-- C7: when a request's reply is classified as user-cancelled
(`OperationCanceledError`), the generic error notification to the error
channel is suppressed, any supplied per-call errorCallback is still
invoked with the reply, the request's queue entry is released, and open
transfer file handles are closed. -/
theorem cancelled_reply_cleanup (cb : Nat) (reply : Reply) (kwargs : Kwargs)
    (pending : PendingRequests)
    (hc : reply.error = ReplyError.OperationCanceledError) :
    (∀ t m, Effect.emitErrorMessage t m ∉
      (reply_finished cb reply kwargs pending).effects) ∧
    (kwargs.errorCallback = true →
      Effect.invokeErrorCallback ∈ (reply_finished cb reply kwargs pending).effects) ∧
    (reply_finished cb reply kwargs pending).pending =
      popRequest kwargs.request_id pending ∧
    Effect.closeFileHandles ∈ (reply_finished cb reply kwargs pending).effects := by
  rw [reply_finished_cancel cb reply kwargs pending hc]
  refine ⟨?_, ?_, rfl, ?_⟩
  · intro t m
    by_cases hec : kwargs.errorCallback <;> simp [errorCallbackEffects, hec]
  · intro hec
    simp [errorCallbackEffects, hec]
  · simp

/-- Witness for `cancelled_reply_cleanup`: a concrete cancelled GET
reply with an errorCallback supplied. -/
theorem cancelled_reply_cleanup_witness :
    Effect.emitErrorMessage "403" "Operation canceled" ∉ (reply_finished 1
      { error := ReplyError.OperationCanceledError, httpStatus := 0,
        errorString := "Operation canceled", redirectTarget := "",
        operation := Operation.GetOperation }
      { request_id := some 9, redirect_count := some 0, errorCallback := true,
        downloadProgress := false, readyRead := false, abortSignal := true }
      [(9, { owner := "u1", cont := 4 })]).effects ∧
    Effect.invokeErrorCallback ∈ (reply_finished 1
      { error := ReplyError.OperationCanceledError, httpStatus := 0,
        errorString := "Operation canceled", redirectTarget := "",
        operation := Operation.GetOperation }
      { request_id := some 9, redirect_count := some 0, errorCallback := true,
        downloadProgress := false, readyRead := false, abortSignal := true }
      [(9, { owner := "u1", cont := 4 })]).effects ∧
    (reply_finished 1
      { error := ReplyError.OperationCanceledError, httpStatus := 0,
        errorString := "Operation canceled", redirectTarget := "",
        operation := Operation.GetOperation }
      { request_id := some 9, redirect_count := some 0, errorCallback := true,
        downloadProgress := false, readyRead := false, abortSignal := true }
      [(9, { owner := "u1", cont := 4 })]).pending = popRequest (some 9)
        [(9, { owner := "u1", cont := 4 })] ∧
    Effect.closeFileHandles ∈ (reply_finished 1
      { error := ReplyError.OperationCanceledError, httpStatus := 0,
        errorString := "Operation canceled", redirectTarget := "",
        operation := Operation.GetOperation }
      { request_id := some 9, redirect_count := some 0, errorCallback := true,
        downloadProgress := false, readyRead := false, abortSignal := true }
      [(9, { owner := "u1", cont := 4 })]).effects :=
  ⟨(cancelled_reply_cleanup 1 _ _ _ rfl).1 "403" "Operation canceled",
   (cancelled_reply_cleanup 1 _ _ _ rfl).2.1 rfl,
   (cancelled_reply_cleanup 1 _ _ _ rfl).2.2.1,
   (cancelled_reply_cleanup 1 _ _ _ rfl).2.2.2⟩

/-- C10: a non-GET reply (POST, PUT, DELETE) with no transport error
carrying HTTP status 301/302 while the redirect count is below
`MAX_REDIRECTS` terminates silently: `__reply_finished` removes the
pending-queue entry and only releases the reply — no reissue, no
callback or errorCallback invocation, no error/warning signal, and no
file-handle cleanup. -/
theorem silent_non_get_redirect (cb : Nat) (reply : Reply) (kwargs : Kwargs)
    (pending : PendingRequests) (rc : Nat)
    (he : reply.error = ReplyError.NoError)
    (hs : reply.httpStatus = 301 ∨ reply.httpStatus = 302)
    (hrc : kwargs.redirect_count = some rc)
    (hlt : rc < MAX_REDIRECTS)
    (hop : reply.operation ≠ Operation.GetOperation) :
    (reply_finished cb reply kwargs pending).effects = [Effect.deleteReply] ∧
    (reply_finished cb reply kwargs pending).pending =
      popRequest kwargs.request_id pending ∧
    (reply_finished cb reply kwargs pending).raisedKeyError = false := by
  rw [reply_finished_redirect_silent cb reply kwargs pending rc he hs hrc hlt hop]
  exact ⟨rfl, rfl, rfl⟩

/-- Witness for `silent_non_get_redirect`: a DELETE reply with status
301 at redirect count 0. -/
theorem silent_non_get_redirect_witness :
    (reply_finished 2
      { error := ReplyError.NoError, httpStatus := 301, errorString := "",
        redirectTarget := "https://osf.io/moved", operation := Operation.DeleteOperation }
      { request_id := some 5, redirect_count := some 0, errorCallback := true,
        downloadProgress := false, readyRead := false, abortSignal := false }
      [(5, { owner := "u2", cont := 7 })]).effects = [Effect.deleteReply] ∧
    (reply_finished 2
      { error := ReplyError.NoError, httpStatus := 301, errorString := "",
        redirectTarget := "https://osf.io/moved", operation := Operation.DeleteOperation }
      { request_id := some 5, redirect_count := some 0, errorCallback := true,
        downloadProgress := false, readyRead := false, abortSignal := false }
      [(5, { owner := "u2", cont := 7 })]).pending = popRequest
        ({ request_id := some 5, redirect_count := some 0, errorCallback := true,
           downloadProgress := false, readyRead := false, abortSignal := false } : Kwargs).request_id
        [(5, { owner := "u2", cont := 7 })] ∧
    (reply_finished 2
      { error := ReplyError.NoError, httpStatus := 301, errorString := "",
        redirectTarget := "https://osf.io/moved", operation := Operation.DeleteOperation }
      { request_id := some 5, redirect_count := some 0, errorCallback := true,
        downloadProgress := false, readyRead := false, abortSignal := false }
      [(5, { owner := "u2", cont := 7 })]).raisedKeyError = false :=
  silent_non_get_redirect 2 _ _ _ 0 rfl (Or.inl rfl) rfl (by decide) (by decide)

/-- C6: a GET reply with no transport error and HTTP status 301/302
below the hop bound is reissued against the redirect target carried in
the reply, with the hop count incremented, the same completion
continuation `cb`, and the caller configuration kwargs preserved
(only `'_request_id'` is stripped and `'redirect_count'` bumped);
verbs other than GET are never redirect-followed. -/
theorem get_redirect_reissue (cb : Nat) (reply : Reply) (kwargs : Kwargs)
    (pending : PendingRequests) (rc : Nat)
    (he : reply.error = ReplyError.NoError)
    (hs : reply.httpStatus = 301 ∨ reply.httpStatus = 302)
    (hrc : kwargs.redirect_count = some rc)
    (hlt : rc < MAX_REDIRECTS) :
    (reply.operation = Operation.GetOperation →
      (reply_finished cb reply kwargs pending).effects =
        [Effect.reissueGet reply.redirectTarget cb
          { kwargs with request_id := none, redirect_count := some (rc + 1) },
         Effect.deleteReply]) ∧
    (reply.operation ≠ Operation.GetOperation →
      ∀ url cb' k, Effect.reissueGet url cb' k ∉
        (reply_finished cb reply kwargs pending).effects) := by
  constructor
  · intro hget
    rw [reply_finished_redirect_reissue cb reply kwargs pending rc he hs hrc hlt hget]
  · intro hop url cb' k
    rw [reply_finished_redirect_silent cb reply kwargs pending rc he hs hrc hlt hop]
    simp

/-- Witness for `get_redirect_reissue`: the first redirect of a GET
(count 0) is reissued with hop count 1, the same continuation and the
caller configuration preserved. -/
theorem get_redirect_reissue_witness :
    (reply_finished 3
      { error := ReplyError.NoError, httpStatus := 301, errorString := "",
        redirectTarget := "https://osf.io/target", operation := Operation.GetOperation }
      { request_id := some 11, redirect_count := some 0, errorCallback := true,
        downloadProgress := true, readyRead := true, abortSignal := true }
      [(11, { owner := "u3", cont := 8 })]).effects =
      [Effect.reissueGet "https://osf.io/target" 3
        { request_id := none, redirect_count := some 1, errorCallback := true,
          downloadProgress := true, readyRead := true, abortSignal := true },
       Effect.deleteReply] :=
  (get_redirect_reissue 3 _ _ _ 0 rfl (Or.inl rfl) rfl (by decide)).1 rfl

/-- Every reissue effect produced by `__reply_finished` comes from the
in-bound GET redirect branch: the finished request carried a redirect
count `rc < MAX_REDIRECTS` and the reissued request carries `rc + 1`,
the same continuation, and the reply's redirect target. -/
theorem reissue_effects_shape (cb : Nat) (reply : Reply) (kwargs : Kwargs)
    (pending : PendingRequests) (url : String) (cb' : Nat) (k : Kwargs)
    (hmem : Effect.reissueGet url cb' k ∈
      (reply_finished cb reply kwargs pending).effects) :
    ∃ rc, kwargs.redirect_count = some rc ∧ rc < MAX_REDIRECTS ∧
      k = { kwargs with request_id := none, redirect_count := some (rc + 1) } ∧
      cb' = cb ∧ url = reply.redirectTarget := by
  simp only [reply_finished, errorCallbackEffects] at hmem
  repeat' split at hmem
  all_goals simp_all

/-- C3: the redirect hop count of a logical GET chain never exceeds
`MAX_REDIRECTS` (5) — starting at 0, every in-bound 301/302 reply
reissues with the count incremented, so all reachable counts stay within
the bound — and the 6th consecutive 3xx reply (count 5, no longer below
the bound) is a terminal failure: the error is surfaced to the error
channel and the per-call errorCallback, the reply is released, and no
further reissue happens. -/
theorem redirect_hop_bound (cb : Nat) :
    (∀ rc, ReachableRedirectCount cb rc → rc ≤ MAX_REDIRECTS) ∧
    (∀ (reply : Reply) (kwargs : Kwargs) (pending : PendingRequests) (rc : Nat),
      reply.error = ReplyError.NoError →
      (reply.httpStatus = 301 ∨ reply.httpStatus = 302) →
      kwargs.redirect_count = some rc →
      ¬ rc < MAX_REDIRECTS →
      Effect.emitErrorMessage "Whoops, something is going wrong" "Too Many redirects" ∈
        (reply_finished cb reply kwargs pending).effects ∧
      (kwargs.errorCallback = true →
        Effect.invokeErrorCallback ∈ (reply_finished cb reply kwargs pending).effects) ∧
      Effect.deleteReply ∈ (reply_finished cb reply kwargs pending).effects ∧
      (∀ url cb' k, Effect.reissueGet url cb' k ∉
        (reply_finished cb reply kwargs pending).effects)) := by
  constructor
  · intro rc h
    induction h with
    | initial => decide
    | step rc rc' reply kwargs pending url cb' k hkw hmem hk ih IH =>
      obtain ⟨rc0, h1, h2, h3, -, -⟩ :=
        reissue_effects_shape cb reply kwargs pending url cb' k hmem
      rw [h3] at hk
      simp only [Option.some.injEq] at hk
      have : rc0 < MAX_REDIRECTS := h2
      omega
  · intro reply kwargs pending rc he hs hrc hge
    rw [reply_finished_redirect_exhausted cb reply kwargs pending rc he hs hrc hge]
    refine ⟨by simp, fun hec => ?_, by simp, fun url cb' k => ?_⟩
    · simp [errorCallbackEffects, hec]
    · by_cases hec : kwargs.errorCallback <;> simp [errorCallbackEffects, hec]

/-- Witness for `redirect_hop_bound`: the terminal part evaluated on a
GET reply with status 302 whose request already carries redirect count
5 (the 6th consecutive 3xx), with an errorCallback supplied. -/
theorem redirect_hop_bound_witness :
    Effect.emitErrorMessage "Whoops, something is going wrong" "Too Many redirects" ∈
      (reply_finished 4
        { error := ReplyError.NoError, httpStatus := 302, errorString := "",
          redirectTarget := "https://osf.io/loop", operation := Operation.GetOperation }
        { request_id := some 1, redirect_count := some 5, errorCallback := true,
          downloadProgress := false, readyRead := false, abortSignal := false }
        []).effects ∧
    Effect.invokeErrorCallback ∈
      (reply_finished 4
        { error := ReplyError.NoError, httpStatus := 302, errorString := "",
          redirectTarget := "https://osf.io/loop", operation := Operation.GetOperation }
        { request_id := some 1, redirect_count := some 5, errorCallback := true,
          downloadProgress := false, readyRead := false, abortSignal := false }
        []).effects ∧
    Effect.deleteReply ∈
      (reply_finished 4
        { error := ReplyError.NoError, httpStatus := 302, errorString := "",
          redirectTarget := "https://osf.io/loop", operation := Operation.GetOperation }
        { request_id := some 1, redirect_count := some 5, errorCallback := true,
          downloadProgress := false, readyRead := false, abortSignal := false }
        []).effects ∧
    Effect.reissueGet "https://osf.io/loop" 4
        { request_id := none, redirect_count := some 6, errorCallback := true,
          downloadProgress := false, readyRead := false, abortSignal := false } ∉
      (reply_finished 4
        { error := ReplyError.NoError, httpStatus := 302, errorString := "",
          redirectTarget := "https://osf.io/loop", operation := Operation.GetOperation }
        { request_id := some 1, redirect_count := some 5, errorCallback := true,
          downloadProgress := false, readyRead := false, abortSignal := false }
        []).effects :=
  ⟨((redirect_hop_bound 4).2 _ _ [] 5 rfl (Or.inr rfl) rfl (by decide)).1,
   ((redirect_hop_bound 4).2 _ _ [] 5 rfl (Or.inr rfl) rfl (by decide)).2.1 rfl,
   ((redirect_hop_bound 4).2 _ _ [] 5 rfl (Or.inr rfl) rfl (by decide)).2.2.1,
   ((redirect_hop_bound 4).2 _ _ [] 5 rfl (Or.inr rfl) rfl (by decide)).2.2.2 _ _ _⟩

/-- C2: while online and logged in, every verb call registers — before
the network call goes out — a queue entry under a fresh request id
holding the owner's user id and the replay closure; the entry is
retained when the reply is an authentication failure and removed on
every other classification (success, redirect continuation, silent or
exhausted redirect, or non-authentication terminal error) — never at
issuance. -/
theorem pending_queue_lifecycle
    (isOnline : Bool) (uid : String) (freshId cont : Nat) (pending0 : PendingRequests)
    (cb : Nat) (reply : Reply) (kwargs : Kwargs) (pending : PendingRequests) (rid : Nat)
    (hon : isOnline = true) (hrid : kwargs.request_id = some rid) :
    func_wrapper isOnline (some uid) freshId cont pending0 =
      WrapperResult.issued (some freshId)
        (pending0 ++ [(freshId, { owner := uid, cont := cont })]) ∧
    (reply.error = ReplyError.AuthenticationRequiredError →
      (reply_finished cb reply kwargs pending).pending = pending) ∧
    (reply.error ≠ ReplyError.AuthenticationRequiredError →
      (reply_finished cb reply kwargs pending).pending =
        pending.filter (fun p => p.1 != rid)) := by
  refine ⟨by simp [func_wrapper, hon], fun hauth => ?_, fun hne => ?_⟩
  · rw [reply_finished_auth cb reply kwargs pending hauth]
  · rw [reply_finished_pending_nonauth cb reply kwargs pending hne]
    simp [popRequest, hrid]

/-- Witness for `pending_queue_lifecycle`: a concrete request of user
"alice" registered under id 42 whose reply is an authentication
failure, so the entry is retained. -/
theorem pending_queue_lifecycle_witness :
    func_wrapper true (some "alice") 42 6 [] =
      WrapperResult.issued (some 42) ([] ++ [(42, { owner := "alice", cont := 6 })]) ∧
    (reply_finished 0
      { error := ReplyError.AuthenticationRequiredError, httpStatus := 401,
        errorString := "authentication required", redirectTarget := "",
        operation := Operation.GetOperation }
      { request_id := some 42, redirect_count := some 0, errorCallback := false,
        downloadProgress := false, readyRead := false, abortSignal := false }
      [(42, { owner := "alice", cont := 6 })]).pending =
        [(42, { owner := "alice", cont := 6 })] :=
  ⟨(pending_queue_lifecycle true "alice" 42 6 [] 0
      { error := ReplyError.AuthenticationRequiredError, httpStatus := 401,
        errorString := "authentication required", redirectTarget := "",
        operation := Operation.GetOperation }
      { request_id := some 42, redirect_count := some 0, errorCallback := false,
        downloadProgress := false, readyRead := false, abortSignal := false }
      [(42, { owner := "alice", cont := 6 })] 42 rfl rfl).1,
   (pending_queue_lifecycle true "alice" 42 6 [] 0
      { error := ReplyError.AuthenticationRequiredError, httpStatus := 401,
        errorString := "authentication required", redirectTarget := "",
        operation := Operation.GetOperation }
      { request_id := some 42, redirect_count := some 0, errorCallback := false,
        downloadProgress := false, readyRead := false, abortSignal := false }
      [(42, { owner := "alice", cont := 6 })] 42 rfl rfl).2.1 rfl⟩

/-- The replay loop of `set_logged_in_user` fires, in insertion order,
exactly the continuations of the entries owned by `uid`. -/
theorem replayLoop_eq_filter_map (uid : String) (l : PendingRequests) :
    replayLoop uid l = (l.filter (fun p => p.2.owner == uid)).map (fun p => p.2.cont) := by
  induction l with
  | nil => rfl
  | cons hd tl ih =>
    obtain ⟨id, e⟩ := hd
    by_cases h : e.owner = uid <;> simp [replayLoop, h, ih]

/-- Each pending entry owned by `uid` contributes exactly one
invocation of its continuation to the replay. -/
theorem replayLoop_count (uid : String) (c : Nat) (l : PendingRequests) :
    (replayLoop uid l).count c =
      (l.filter (fun p => p.2.owner == uid && p.2.cont == c)).length := by
  induction l with
  | nil => rfl
  | cons hd tl ih =>
    obtain ⟨id, e⟩ := hd
    by_cases h : e.owner = uid
    · by_cases hc : e.cont = c <;>
        simp [replayLoop, h, hc, ih, List.count_cons]
    · simp [replayLoop, h, ih]

/-- C1: an authentication-failure reply leaves the pending queue
untouched, and when the same user re-authenticates,
`set_logged_in_user` fires exactly the continuations owned by that
user, once each, in insertion order, and then clears the whole queue —
including entries owned by other users. -/
theorem auth_replay_order_and_clear (cb : Nat) (reply : Reply) (kwargs : Kwargs)
    (pending : PendingRequests) (uid : String)
    (hauth : reply.error = ReplyError.AuthenticationRequiredError) :
    (reply_finished cb reply kwargs pending).pending = pending ∧
    (set_logged_in_user uid pending).1 =
      (pending.filter (fun p => p.2.owner == uid)).map (fun p => p.2.cont) ∧
    (∀ c, (set_logged_in_user uid pending).1.count c =
      (pending.filter (fun p => p.2.owner == uid && p.2.cont == c)).length) ∧
    (set_logged_in_user uid pending).2 = [] := by
  refine ⟨?_, replayLoop_eq_filter_map uid pending,
    fun c => replayLoop_count uid c pending, rfl⟩
  rw [reply_finished_auth cb reply kwargs pending hauth]

/-- Witness for `auth_replay_order_and_clear`: a queue holding two
"alice" entries around a "bob" entry; the auth failure retains all
three, the replay fires alice's continuations 10 then 30, continuation
10 fires exactly once, and the queue is cleared including bob's
entry. -/
theorem auth_replay_order_and_clear_witness :
    (reply_finished 0
      { error := ReplyError.AuthenticationRequiredError, httpStatus := 401,
        errorString := "authentication required", redirectTarget := "",
        operation := Operation.GetOperation }
      { request_id := some 1, redirect_count := some 0, errorCallback := false,
        downloadProgress := false, readyRead := false, abortSignal := false }
      [(1, { owner := "alice", cont := 10 }), (2, { owner := "bob", cont := 20 }),
       (3, { owner := "alice", cont := 30 })]).pending =
      [(1, { owner := "alice", cont := 10 }), (2, { owner := "bob", cont := 20 }),
       (3, { owner := "alice", cont := 30 })] ∧
    (set_logged_in_user "alice"
      [(1, { owner := "alice", cont := 10 }), (2, { owner := "bob", cont := 20 }),
       (3, { owner := "alice", cont := 30 })]).1 =
      (([(1, { owner := "alice", cont := 10 }), (2, { owner := "bob", cont := 20 }),
        (3, { owner := "alice", cont := 30 })] : PendingRequests).filter
          (fun p => p.2.owner == "alice")).map (fun p => p.2.cont) ∧
    (set_logged_in_user "alice"
      [(1, { owner := "alice", cont := 10 }), (2, { owner := "bob", cont := 20 }),
       (3, { owner := "alice", cont := 30 })]).1.count 10 =
      (([(1, { owner := "alice", cont := 10 }), (2, { owner := "bob", cont := 20 }),
        (3, { owner := "alice", cont := 30 })] : PendingRequests).filter
          (fun p => p.2.owner == "alice" && p.2.cont == 10)).length ∧
    (set_logged_in_user "alice"
      [(1, { owner := "alice", cont := 10 }), (2, { owner := "bob", cont := 20 }),
       (3, { owner := "alice", cont := 30 })]).2 = [] :=
  ⟨(auth_replay_order_and_clear 0
      { error := ReplyError.AuthenticationRequiredError, httpStatus := 401,
        errorString := "authentication required", redirectTarget := "",
        operation := Operation.GetOperation }
      { request_id := some 1, redirect_count := some 0, errorCallback := false,
        downloadProgress := false, readyRead := false, abortSignal := false }
      [(1, { owner := "alice", cont := 10 }), (2, { owner := "bob", cont := 20 }),
       (3, { owner := "alice", cont := 30 })] "alice" rfl).1,
   (auth_replay_order_and_clear 0
      { error := ReplyError.AuthenticationRequiredError, httpStatus := 401,
        errorString := "authentication required", redirectTarget := "",
        operation := Operation.GetOperation }
      { request_id := some 1, redirect_count := some 0, errorCallback := false,
        downloadProgress := false, readyRead := false, abortSignal := false }
      [(1, { owner := "alice", cont := 10 }), (2, { owner := "bob", cont := 20 }),
       (3, { owner := "alice", cont := 30 })] "alice" rfl).2.1,
   (auth_replay_order_and_clear 0
      { error := ReplyError.AuthenticationRequiredError, httpStatus := 401,
        errorString := "authentication required", redirectTarget := "",
        operation := Operation.GetOperation }
      { request_id := some 1, redirect_count := some 0, errorCallback := false,
        downloadProgress := false, readyRead := false, abortSignal := false }
      [(1, { owner := "alice", cont := 10 }), (2, { owner := "bob", cont := 20 }),
       (3, { owner := "alice", cont := 30 })] "alice" rfl).2.2.1 10,
   (auth_replay_order_and_clear 0
      { error := ReplyError.AuthenticationRequiredError, httpStatus := 401,
        errorString := "authentication required", redirectTarget := "",
        operation := Operation.GetOperation }
      { request_id := some 1, redirect_count := some 0, errorCallback := false,
        downloadProgress := false, readyRead := false, abortSignal := false }
      [(1, { owner := "alice", cont := 10 }), (2, { owner := "bob", cont := 20 }),
       (3, { owner := "alice", cont := 30 })] "alice" rfl).2.2.2⟩


/-- C4: the staging handle of every transfer is closed on each of the
four exit paths — success (`__download_finished` closes the temp file
of a download, `__upload_finished` closes the source of an upload),
non-authentication transport/HTTP error and user cancellation
(`__close_file_handles` invoked from the error branch of
`__reply_finished`), and redirect exhaustion — where
`__close_file_handles` closes whichever of the two kinds of handle the
failed transfer holds. -/
theorem transfer_handles_closed_on_exit
    (cb : Nat) (reply : Reply) (kwargs : Kwargs) (pending : PendingRequests)
    (rc : Nat) (dlSt ulSt clSt : TransferState)
    (hasDestination removeOk copyOk fcb fcb' : Bool) (st1 st2 : TransferState)
    (effs1 effs2 : List Effect)
    (hdl : download_finished hasDestination removeOk copyOk fcb dlSt =
      TransferResult.done st1 effs1)
    (hul : upload_finished fcb' ulSt = TransferResult.done st2 effs2) :
    (reply.error ≠ ReplyError.NoError →
      reply.error ≠ ReplyError.AuthenticationRequiredError →
      Effect.closeFileHandles ∈ (reply_finished cb reply kwargs pending).effects) ∧
    (reply.error = ReplyError.NoError →
      (reply.httpStatus = 301 ∨ reply.httpStatus = 302) →
      kwargs.redirect_count = some rc → ¬ rc < MAX_REDIRECTS →
      Effect.closeFileHandles ∈ (reply_finished cb reply kwargs pending).effects) ∧
    ((close_file_handles clSt).tmp_file ≠ some true ∧
      (close_file_handles clSt).data_to_send ≠ some true) ∧
    st1.tmp_file = some false ∧
    st2.data_to_send = some false := by
  refine ⟨fun h1 h2 => ?_, fun he hs hrc hge => ?_, ⟨?_, ?_⟩, ?_, ?_⟩
  · cases herr : reply.error with
    | NoError => exact absurd herr h1
    | AuthenticationRequiredError => exact absurd herr h2
    | OperationCanceledError =>
        rw [reply_finished_cancel cb reply kwargs pending herr]; simp
    | ContentNotFoundError =>
        rw [reply_finished_genericError cb reply kwargs pending (Or.inl herr)]; simp
    | otherNetworkError =>
        rw [reply_finished_genericError cb reply kwargs pending (Or.inr herr)]; simp
  · rw [reply_finished_redirect_exhausted cb reply kwargs pending rc he hs hrc hge]
    by_cases hec : kwargs.errorCallback <;> simp [errorCallbackEffects, hec]
  · cases h : clSt.tmp_file <;> simp [close_file_handles, h]
  · cases h : clSt.data_to_send <;> simp [close_file_handles, h]
  · simp only [download_finished, download_copy] at hdl
    repeat' split at hdl
    all_goals first
      | exact TransferResult.noConfusion hdl
      | (obtain ⟨h, -⟩ := TransferResult.done.inj hdl; subst h; rfl)
  · simp only [upload_finished] at hul
    repeat' split at hul
    all_goals first
      | exact TransferResult.noConfusion hul
      | (obtain ⟨h, -⟩ := TransferResult.done.inj hul; subst h; rfl)

/-- Witness for `transfer_handles_closed_on_exit`: a 404 GET reply and
an exhausted-redirect reply both close handles; `__close_file_handles`
closes the open temp handle of a concrete download state; the concrete
success state of `__download_finished` on a real download (no upload
handle) has its temp handle closed, and the concrete success state of
`__upload_finished` on a real upload (no temp file) has its source
handle closed. -/
theorem transfer_handles_closed_on_exit_witness :
    Effect.closeFileHandles ∈ (reply_finished 0
      { error := ReplyError.ContentNotFoundError, httpStatus := 404,
        errorString := "not found", redirectTarget := "",
        operation := Operation.GetOperation }
      { request_id := some 3, redirect_count := some 0, errorCallback := false,
        downloadProgress := false, readyRead := false, abortSignal := false }
      []).effects ∧
    Effect.closeFileHandles ∈ (reply_finished 0
      { error := ReplyError.NoError, httpStatus := 301, errorString := "",
        redirectTarget := "https://osf.io/loop", operation := Operation.GetOperation }
      { request_id := some 3, redirect_count := some 5, errorCallback := false,
        downloadProgress := false, readyRead := false, abortSignal := false }
      []).effects ∧
    (close_file_handles
      { tmp_file := some true, tmpContent := "payload", data_to_send := none,
        destContent := some "old" }).tmp_file ≠ some true ∧
    (close_file_handles
      { tmp_file := some true, tmpContent := "payload", data_to_send := none,
        destContent := some "old" }).data_to_send ≠ some true ∧
    ({ tmp_file := some false, tmpContent := "payload", data_to_send := none,
       destContent := some "payload" } : TransferState).tmp_file = some false ∧
    ({ tmp_file := none, tmpContent := "", data_to_send := some false,
       destContent := none } : TransferState).data_to_send = some false :=
  ⟨(transfer_handles_closed_on_exit 0
      { error := ReplyError.ContentNotFoundError, httpStatus := 404,
        errorString := "not found", redirectTarget := "",
        operation := Operation.GetOperation }
      { request_id := some 3, redirect_count := some 0, errorCallback := false,
        downloadProgress := false, readyRead := false, abortSignal := false }
      [] 0
      { tmp_file := some true, tmpContent := "payload", data_to_send := none,
        destContent := some "old" }
      { tmp_file := none, tmpContent := "", data_to_send := some true,
        destContent := none }
      { tmp_file := some true, tmpContent := "payload", data_to_send := none,
        destContent := some "old" }
      true true true false false
      { tmp_file := some false, tmpContent := "payload", data_to_send := none,
        destContent := some "payload" }
      { tmp_file := none, tmpContent := "", data_to_send := some false,
        destContent := none }
      [] [] rfl rfl).1 (by decide) (by decide),
   (transfer_handles_closed_on_exit 0
      { error := ReplyError.NoError, httpStatus := 301, errorString := "",
        redirectTarget := "https://osf.io/loop", operation := Operation.GetOperation }
      { request_id := some 3, redirect_count := some 5, errorCallback := false,
        downloadProgress := false, readyRead := false, abortSignal := false }
      [] 5
      { tmp_file := some true, tmpContent := "payload", data_to_send := none,
        destContent := some "old" }
      { tmp_file := none, tmpContent := "", data_to_send := some true,
        destContent := none }
      { tmp_file := some true, tmpContent := "payload", data_to_send := none,
        destContent := some "old" }
      true true true false false
      { tmp_file := some false, tmpContent := "payload", data_to_send := none,
        destContent := some "payload" }
      { tmp_file := none, tmpContent := "", data_to_send := some false,
        destContent := none }
      [] [] rfl rfl).2.1 rfl (Or.inl rfl) rfl (by decide),
   (transfer_handles_closed_on_exit 0
      { error := ReplyError.ContentNotFoundError, httpStatus := 404,
        errorString := "not found", redirectTarget := "",
        operation := Operation.GetOperation }
      { request_id := some 3, redirect_count := some 0, errorCallback := false,
        downloadProgress := false, readyRead := false, abortSignal := false }
      [] 0
      { tmp_file := some true, tmpContent := "payload", data_to_send := none,
        destContent := some "old" }
      { tmp_file := none, tmpContent := "", data_to_send := some true,
        destContent := none }
      { tmp_file := some true, tmpContent := "payload", data_to_send := none,
        destContent := some "old" }
      true true true false false
      { tmp_file := some false, tmpContent := "payload", data_to_send := none,
        destContent := some "payload" }
      { tmp_file := none, tmpContent := "", data_to_send := some false,
        destContent := none }
      [] [] rfl rfl).2.2.1.1,
   (transfer_handles_closed_on_exit 0
      { error := ReplyError.ContentNotFoundError, httpStatus := 404,
        errorString := "not found", redirectTarget := "",
        operation := Operation.GetOperation }
      { request_id := some 3, redirect_count := some 0, errorCallback := false,
        downloadProgress := false, readyRead := false, abortSignal := false }
      [] 0
      { tmp_file := some true, tmpContent := "payload", data_to_send := none,
        destContent := some "old" }
      { tmp_file := none, tmpContent := "", data_to_send := some true,
        destContent := none }
      { tmp_file := some true, tmpContent := "payload", data_to_send := none,
        destContent := some "old" }
      true true true false false
      { tmp_file := some false, tmpContent := "payload", data_to_send := none,
        destContent := some "payload" }
      { tmp_file := none, tmpContent := "", data_to_send := some false,
        destContent := none }
      [] [] rfl rfl).2.2.1.2,
   (transfer_handles_closed_on_exit 0
      { error := ReplyError.ContentNotFoundError, httpStatus := 404,
        errorString := "not found", redirectTarget := "",
        operation := Operation.GetOperation }
      { request_id := some 3, redirect_count := some 0, errorCallback := false,
        downloadProgress := false, readyRead := false, abortSignal := false }
      [] 0
      { tmp_file := some true, tmpContent := "payload", data_to_send := none,
        destContent := some "old" }
      { tmp_file := none, tmpContent := "", data_to_send := some true,
        destContent := none }
      { tmp_file := some true, tmpContent := "payload", data_to_send := none,
        destContent := some "old" }
      true true true false false
      { tmp_file := some false, tmpContent := "payload", data_to_send := none,
        destContent := some "payload" }
      { tmp_file := none, tmpContent := "", data_to_send := some false,
        destContent := none }
      [] [] rfl rfl).2.2.2.1,
   (transfer_handles_closed_on_exit 0
      { error := ReplyError.ContentNotFoundError, httpStatus := 404,
        errorString := "not found", redirectTarget := "",
        operation := Operation.GetOperation }
      { request_id := some 3, redirect_count := some 0, errorCallback := false,
        downloadProgress := false, readyRead := false, abortSignal := false }
      [] 0
      { tmp_file := some true, tmpContent := "payload", data_to_send := none,
        destContent := some "old" }
      { tmp_file := none, tmpContent := "", data_to_send := some true,
        destContent := none }
      { tmp_file := some true, tmpContent := "payload", data_to_send := none,
        destContent := some "old" }
      true true true false false
      { tmp_file := some false, tmpContent := "payload", data_to_send := none,
        destContent := some "payload" }
      { tmp_file := none, tmpContent := "", data_to_send := some false,
        destContent := none }
      [] [] rfl rfl).2.2.2.2⟩

/-- C8: on successful completion of a download, `__download_finished`
closes the temp handle first; when a file already exists at the
destination and its deletion fails, a distinct "Could not replace"
error is emitted, the operation stops and the pre-existing destination
file is untouched; only after a successful deletion (or with no
pre-existing file) is the temp content copied to the destination, a
copy failure being likewise terminal and user-visible; and a transfer
failing before completion (`__close_file_handles`) never removes or
overwrites the destination file. -/
theorem download_finalize_spec (removeOk copyOk fcb : Bool)
    (st st' : TransferState) (effs : List Effect)
    (hdl : download_finished true removeOk copyOk fcb st =
      TransferResult.done st' effs) :
    st'.tmp_file = some false ∧
    (st.destContent.isSome = true → removeOk = false →
      effs = [Effect.emitErrorMessage "Error saving file" "Could not replace destination"] ∧
      st'.destContent = st.destContent ∧
      Effect.invokeFinishedCallback ∉ effs) ∧
    ((st.destContent = none ∨ removeOk = true) → copyOk = false →
      effs = [Effect.emitErrorMessage "Error saving file" "Could not save file to destination"] ∧
      Effect.invokeFinishedCallback ∉ effs) ∧
    ((st.destContent = none ∨ removeOk = true) → copyOk = true →
      st'.destContent = some st.tmpContent) ∧
    (close_file_handles st).destContent = st.destContent := by
  simp only [download_finished, download_copy] at hdl
  refine ⟨?_, ?_, ?_, ?_, rfl⟩ <;>
    (repeat' split at hdl) <;>
    first
      | exact TransferResult.noConfusion hdl
      | (obtain ⟨h1, h2⟩ := TransferResult.done.inj hdl
         subst h1
         subst h2
         simp_all)

/-- Witness for `download_finalize_spec`: a download whose destination
already holds a file that cannot be deleted — the temp handle is
closed, the "Could not replace" error is emitted, the old destination
content survives, and the finished callback is not invoked. -/
theorem download_finalize_spec_witness :
    ({ tmp_file := some false, tmpContent := "new", data_to_send := none,
       destContent := some "old" } : TransferState).tmp_file = some false ∧
    [Effect.emitErrorMessage "Error saving file" "Could not replace destination"] =
      [Effect.emitErrorMessage "Error saving file" "Could not replace destination"] ∧
    ({ tmp_file := some false, tmpContent := "new", data_to_send := none,
       destContent := some "old" } : TransferState).destContent =
      ({ tmp_file := some true, tmpContent := "new", data_to_send := none,
         destContent := some "old" } : TransferState).destContent ∧
    Effect.invokeFinishedCallback ∉
      [Effect.emitErrorMessage "Error saving file" "Could not replace destination"] ∧
    (close_file_handles
      { tmp_file := some true, tmpContent := "new", data_to_send := none,
        destContent := some "old" }).destContent = some "old" :=
  ⟨(download_finalize_spec false true true
      { tmp_file := some true, tmpContent := "new", data_to_send := none,
        destContent := some "old" }
      { tmp_file := some false, tmpContent := "new", data_to_send := none,
        destContent := some "old" }
      [Effect.emitErrorMessage "Error saving file" "Could not replace destination"]
      rfl).1,
   ((download_finalize_spec false true true
      { tmp_file := some true, tmpContent := "new", data_to_send := none,
        destContent := some "old" }
      { tmp_file := some false, tmpContent := "new", data_to_send := none,
        destContent := some "old" }
      [Effect.emitErrorMessage "Error saving file" "Could not replace destination"]
      rfl).2.1 rfl rfl).1 ▸ rfl,
   ((download_finalize_spec false true true
      { tmp_file := some true, tmpContent := "new", data_to_send := none,
        destContent := some "old" }
      { tmp_file := some false, tmpContent := "new", data_to_send := none,
        destContent := some "old" }
      [Effect.emitErrorMessage "Error saving file" "Could not replace destination"]
      rfl).2.1 rfl rfl).2.1,
   ((download_finalize_spec false true true
      { tmp_file := some true, tmpContent := "new", data_to_send := none,
        destContent := some "old" }
      { tmp_file := some false, tmpContent := "new", data_to_send := none,
        destContent := some "old" }
      [Effect.emitErrorMessage "Error saving file" "Could not replace destination"]
      rfl).2.1 rfl rfl).2.2,
   (download_finalize_spec false true true
      { tmp_file := some true, tmpContent := "new", data_to_send := none,
        destContent := some "old" }
      { tmp_file := some false, tmpContent := "new", data_to_send := none,
        destContent := some "old" }
      [Effect.emitErrorMessage "Error saving file" "Could not replace destination"]
      rfl).2.2.2.2⟩

/-- C5 counterexample: while authenticated, `logout()` performs the
server-side POST with `__logout_succeeded` as its completion
continuation (tag 0), but when that POST's reply carries a generic
transport error (here a 500 with `otherNetworkError`), the completion
continuation is never invoked and the authentication branch is not
taken, so the logout event is NOT dispatched — the reply handling only
closes handles and releases the reply. -/
theorem logout_event_not_dispatched_on_error :
    logout true true = LogoutAction.postLogout ∧
    ¬ logoutEventDispatched 0 (reply_finished 0
      { error := ReplyError.otherNetworkError, httpStatus := 500,
        errorString := "Internal server error", redirectTarget := "",
        operation := Operation.PostOperation }
      { request_id := none, redirect_count := none, errorCallback := false,
        downloadProgress := false, readyRead := false, abortSignal := false }
      []) := by
  decide

/-- C5 amended: while authenticated, `logout()` performs the
server-side logout POST; on the completion of that POST the logout
event is dispatched iff the call succeeded with a non-redirect status
(so `__logout_succeeded` runs) or failed with an authentication error
(where the generic auth handling dispatches logout) — on any other
failure the logout event is NOT dispatched and local session state is
not cleared. -/
theorem logout_event_amended (isAuthorized hasAccessToken : Bool) (cb : Nat)
    (reply : Reply) (kwargs : Kwargs) (pending : PendingRequests)
    (hauth : isAuthorized = true) (htok : hasAccessToken = true) :
    logout isAuthorized hasAccessToken = LogoutAction.postLogout ∧
    (logoutEventDispatched cb (reply_finished cb reply kwargs pending) ↔
      (reply.error = ReplyError.AuthenticationRequiredError ∨
        (reply.error = ReplyError.NoError ∧
          reply.httpStatus ≠ 301 ∧ reply.httpStatus ≠ 302))) := by
  refine ⟨by simp [logout, hauth, htok], ?_⟩
  cases herr : reply.error with
  | AuthenticationRequiredError =>
    rw [reply_finished_auth cb reply kwargs pending herr]
    simp [logoutEventDispatched]
  | NoError =>
    by_cases h301 : reply.httpStatus = 301
    · cases hk : kwargs.redirect_count with
      | none =>
        rw [reply_finished_keyError cb reply kwargs pending herr (Or.inl h301) hk]
        simp [logoutEventDispatched, h301]
      | some rc =>
        by_cases hlt : rc < MAX_REDIRECTS
        · by_cases hop : reply.operation = Operation.GetOperation
          · rw [reply_finished_redirect_reissue cb reply kwargs pending rc herr
              (Or.inl h301) hk hlt hop]
            simp [logoutEventDispatched, h301]
          · rw [reply_finished_redirect_silent cb reply kwargs pending rc herr
              (Or.inl h301) hk hlt hop]
            simp [logoutEventDispatched, h301]
        · rw [reply_finished_redirect_exhausted cb reply kwargs pending rc herr
            (Or.inl h301) hk hlt]
          by_cases hec : kwargs.errorCallback <;>
            simp [logoutEventDispatched, errorCallbackEffects, hec, h301]
    · by_cases h302 : reply.httpStatus = 302
      · cases hk : kwargs.redirect_count with
        | none =>
          rw [reply_finished_keyError cb reply kwargs pending herr (Or.inr h302) hk]
          simp [logoutEventDispatched, h302]
        | some rc =>
          by_cases hlt : rc < MAX_REDIRECTS
          · by_cases hop : reply.operation = Operation.GetOperation
            · rw [reply_finished_redirect_reissue cb reply kwargs pending rc herr
                (Or.inr h302) hk hlt hop]
              simp [logoutEventDispatched, h302]
            · rw [reply_finished_redirect_silent cb reply kwargs pending rc herr
                (Or.inr h302) hk hlt hop]
              simp [logoutEventDispatched, h302]
          · rw [reply_finished_redirect_exhausted cb reply kwargs pending rc herr
              (Or.inr h302) hk hlt]
            by_cases hec : kwargs.errorCallback <;>
              simp [logoutEventDispatched, errorCallbackEffects, hec, h302]
      · rw [reply_finished_success cb reply kwargs pending herr h301 h302]
        simp [logoutEventDispatched, h301, h302]
  | OperationCanceledError =>
    rw [reply_finished_cancel cb reply kwargs pending herr]
    by_cases hec : kwargs.errorCallback <;>
      simp [logoutEventDispatched, errorCallbackEffects, hec]
  | ContentNotFoundError =>
    rw [reply_finished_genericError cb reply kwargs pending (Or.inl herr)]
    by_cases hec : kwargs.errorCallback <;>
      simp [logoutEventDispatched, errorCallbackEffects, hec]
  | otherNetworkError =>
    rw [reply_finished_genericError cb reply kwargs pending (Or.inr herr)]
    by_cases hec : kwargs.errorCallback <;>
      simp [logoutEventDispatched, errorCallbackEffects, hec]

/-- Witness for `logout_event_amended`: a successful logout POST reply
(status 200) dispatches the logout event via `__logout_succeeded`. -/
theorem logout_event_amended_witness :
    logout true true = LogoutAction.postLogout ∧
    (logoutEventDispatched 5 (reply_finished 5
      { error := ReplyError.NoError, httpStatus := 200, errorString := "",
        redirectTarget := "", operation := Operation.PostOperation }
      { request_id := some 8, redirect_count := none, errorCallback := false,
        downloadProgress := false, readyRead := false, abortSignal := false }
      []) ↔
      (({ error := ReplyError.NoError, httpStatus := 200, errorString := "",
          redirectTarget := "", operation := Operation.PostOperation } : Reply).error =
            ReplyError.AuthenticationRequiredError ∨
        (({ error := ReplyError.NoError, httpStatus := 200, errorString := "",
            redirectTarget := "", operation := Operation.PostOperation } : Reply).error =
              ReplyError.NoError ∧
          ({ error := ReplyError.NoError, httpStatus := 200, errorString := "",
             redirectTarget := "", operation := Operation.PostOperation } : Reply).httpStatus ≠ 301 ∧
          ({ error := ReplyError.NoError, httpStatus := 200, errorString := "",
             redirectTarget := "", operation := Operation.PostOperation } : Reply).httpStatus ≠ 302))) :=
  logout_event_amended true true 5
    { error := ReplyError.NoError, httpStatus := 200, errorString := "",
      redirectTarget := "", operation := Operation.PostOperation }
    { request_id := some 8, redirect_count := none, errorCallback := false,
      downloadProgress := false, readyRead := false, abortSignal := false }
    [] rfl rfl

/-- C9: for a stored token file whose `expires_at` lies in the past,
`check_for_stored_token` returns `False`, resets the in-memory session
(clearing the session token), and deletes the persisted token file; a
subsequent `login()` then shows the login window (interactive
authentication) instead of dispatching a login event. -/
theorem expired_token_cleanup (now : Nat) (st : TokenStoreState)
    (hex : st.tokenfileExists = true) (hrd : st.tokenfileReadable = true)
    (hexp : st.storedToken.expires_at < now) :
    (check_for_stored_token now st).1 = false ∧
    (check_for_stored_token now st).2.session.token = none ∧
    (check_for_stored_token now st).2.tokenfileExists = false ∧
    (login now (check_for_stored_token now st).2).1 = LoginAction.showLoginWindow := by
  have hng : ¬ st.storedToken.expires_at > now := by omega
  refine ⟨?_, ?_, ?_, ?_⟩ <;>
    simp [check_for_stored_token, login, hex, hrd, hng, create_session]

/-- Witness for `expired_token_cleanup`: a token that expired at time
50 checked at time 100. -/
theorem expired_token_cleanup_witness :
    (check_for_stored_token 100
      { tokenfileExists := true, tokenfileReadable := true,
        storedToken := { access_token := "tok", expires_at := 50 },
        session := { token := some { access_token := "tok", expires_at := 50 } } }).1 = false ∧
    (check_for_stored_token 100
      { tokenfileExists := true, tokenfileReadable := true,
        storedToken := { access_token := "tok", expires_at := 50 },
        session := { token := some { access_token := "tok", expires_at := 50 } } }).2.session.token = none ∧
    (check_for_stored_token 100
      { tokenfileExists := true, tokenfileReadable := true,
        storedToken := { access_token := "tok", expires_at := 50 },
        session := { token := some { access_token := "tok", expires_at := 50 } } }).2.tokenfileExists = false ∧
    (login 100 (check_for_stored_token 100
      { tokenfileExists := true, tokenfileReadable := true,
        storedToken := { access_token := "tok", expires_at := 50 },
        session := { token := some { access_token := "tok", expires_at := 50 } } }).2).1 =
      LoginAction.showLoginWindow :=
  expired_token_cleanup 100
    { tokenfileExists := true, tokenfileReadable := true,
      storedToken := { access_token := "tok", expires_at := 50 },
      session := { token := some { access_token := "tok", expires_at := 50 } } }
    rfl rfl (by decide)
